import Mathlib

/-!
# requester: a fluent request builder and its handler chain

The Go package keeps one mutable `Request` object per logical request and hands
out pointers to it.  The embedding below keeps that shape: a `World` holds the
objects that the package reaches through pointers (builders, `http.Client`
values, header maps, the caller's destination variables), a pointer is an index
into the matching store, and every method is a function from a world to the
world left behind together with the value the Go method returns.  A result of
`none` stands for a Go run-time error (nil dereference, write to a nil map).

The collaborators that the package only calls (`net/http`, `encoding/json`,
`net/textproto`) are the fields of `Env`.
-/

namespace Requester

set_option linter.dupNamespace false

/-! ## Data model -/

/-- Go byte slices. -/
abbrev Bytes := List UInt8

/-- Addresses: an index into one of the stores of `World`. A nil pointer is `none`. -/
abbrev Ptr := Nat

/-- The package error type (`error.go`): operation name and message. -/
structure Error where
  Op : String
  Err : String
deriving DecidableEq

/-- `fmt.Sprintf("%s: %s", e.Op, e.Err)`. -/
def Error.Error (e : Error) : String :=
  e.Op ++ ": " ++ e.Err

/-- A value of Go's `error` interface: either a `*Error` of this package or an
error value that some collaborator produced. -/
inductive GoError where
  | requester (e : Error)
  | foreign (msg : String)
deriving DecidableEq

/-- The `Error()` method of an `error` value. -/
def GoError.text : GoError → String
  | .requester e => e.Error
  | .foreign msg => msg

/-- The `%d` verb of `fmt.Sprintf` on an `int`. -/
def fmtD (n : Int) : String :=
  match n with
  | .ofNat m => Nat.repr m
  | .negSucc m => "-" ++ Nat.repr (m + 1)

/-- The `io.Reader` values that the package stores in `Request.body`. -/
inductive Reader where
  | stringsReader (s : String)
  | bytesBuffer (b : Bytes)
deriving DecidableEq

/-- The `http.RoundTripper` that `Proxy` installs:
`&http.Transport{Proxy: http.ProxyURL(url)}`; `url` may be a nil `*url.URL`. -/
inductive RoundTripper where
  | transportWithProxy (url : Option String)
deriving DecidableEq

/-- The fields of `http.Client` that the package touches. `Timeout` is a
`time.Duration`, in nanoseconds. -/
structure Client where
  Transport : Option RoundTripper
  Timeout : Int
deriving DecidableEq

/-- `1 * time.Minute`. -/
def minute : Int := 60000000000

/-- The map behind `http.Header`, as an association list. -/
abbrev HeaderMap := List (String × List String)

/-- Values held by the variables that handlers write through. -/
inductive GoValue where
  | zero
  | cookieList (cs : List String)
  | str (b : Bytes)
  | byteSlice (b : Bytes)
  | record (fields : List (String × Int))
  | other (tag : Nat)
deriving DecidableEq

/-- A response body (`io.ReadCloser`): the bytes it still yields, the error it
reports after them (`none` for `io.EOF`), and the error `Close` returns. -/
structure BodyStream where
  unread : Bytes
  readErr : Option String
  closeErr : Option String
deriving DecidableEq

/-- `io.ReadAll`: everything the stream yields and the error that ended the
read, with the stream left drained. -/
def ReadAll (b : BodyStream) : BodyStream × Bytes × Option String :=
  ({ b with unread := [] }, b.unread, b.readErr)

/-- `Body.Close()`. -/
def BodyStream.Close (b : BodyStream) : Option String :=
  b.closeErr

/-- The fields of `http.Response` that the handlers read. `cookies` is what
`Cookies()` returns. -/
structure Response where
  StatusCode : Int
  Body : Option BodyStream
  cookies : List String
deriving DecidableEq

/-- A `context.Context`. -/
inductive Context where
  | background
  | custom (id : Nat)
deriving DecidableEq

/-- A transport-level `http.Request`. `Header` is the map reference assigned by
`newRequest`. -/
structure HTTPRequest where
  ctx : Context
  Method : String
  URL : String
  Body : Option Reader
  Header : Option Ptr
deriving DecidableEq

/-- The closures of `handler.go`, one constructor per closure-returning
function, carrying what the closure captures. -/
inductive handler where
  | expectCodeHandler (code : Int)
  | cookiesHandler (cookies : Option Ptr)
  | decodeToAnyHandler (v : Option Ptr)
  | decodeToStringHandler (v : Option Ptr)
  | decodeToBytesHandler (v : Option Ptr)
deriving DecidableEq

/-- The builder (`type Request struct`). A handler slot may hold a nil func. -/
structure Request where
  url : String
  method : String
  err : Option GoError
  body : Option Reader
  header : Option Ptr
  httpClient : Option Ptr
  response : Option Response
  handlers : List (Option handler)
deriving DecidableEq

/-- One call of `(*http.Client).Do` as the transport saw it. -/
structure WireCall where
  client : Client
  req : HTTPRequest
  header : Option HeaderMap
deriving DecidableEq

/-- Everything reachable through pointers, and the transport calls made so far. -/
structure World where
  reqs : List Request
  clients : List Client
  headers : List HeaderMap
  vars : List GoValue
  wire : List WireCall
deriving DecidableEq

/-- What `json.NewDecoder(body).Decode(v)` did: the stream it left, the value now
held by the target (`none` when the target was not written), and its error. -/
structure DecodeResult where
  rest : BodyStream
  value : Option GoValue
  err : Option String

/-- The collaborators the package calls but does not implement. -/
structure Env where
  /-- `textproto.CanonicalMIMEHeaderKey`. -/
  canonicalKey : String → String
  /-- `json.Marshal`: bytes and error message. -/
  jsonMarshal : GoValue → Bytes × Option String
  /-- `json.NewDecoder(body).Decode(v)`; the second argument is the value the
  target points at (`none` for a nil target). -/
  jsonDecode : BodyStream → Option GoValue → DecodeResult
  /-- `http.NewRequestWithContext`; a nil context is `none`. -/
  NewRequestWithContext : Option Context → String → String → Option Reader → Except GoError HTTPRequest
  /-- `(*http.Client).Do` on a non-nil client, with the header map contents. -/
  clientDo : Client → HTTPRequest → Option HeaderMap → Option Response × Option GoError

/-! ## Store access -/

/-- Overwrite the builder at address `r`. -/
def setReq (w : World) (r : Ptr) (q : Request) : World :=
  { w with reqs := w.reqs.set r q }

/-- Assignment `r.err = e`. -/
def setErr (w : World) (r : Ptr) (e : Error) : Option World :=
  (w.reqs[r]?).map fun q => setReq w r { q with err := some (.requester e) }

/-- Assignment `*p = val` through a possibly nil pointer. -/
def store (w : World) (p : Option Ptr) (val : GoValue) : Option World :=
  match p with
  | none => none
  | some a => if a < w.vars.length then some { w with vars := w.vars.set a val } else none

/-- `Header.Set` on the map: replace the values under the canonical key. -/
def HeaderMap.Set (env : Env) (m : HeaderMap) (key value : String) : HeaderMap :=
  let k := env.canonicalKey key
  if m.any (fun kv => kv.1 == k) then
    m.map fun kv => if kv.1 == k then (k, [value]) else kv
  else
    m ++ [(k, [value])]

/-! ## requester.go -/

/-- `New(method, url)`: a fresh header map, a fresh client with a one minute
timeout, and a fresh builder pointing at both. -/
def New (method url : String) (w : World) : World × Ptr :=
  ({ w with
      reqs := w.reqs ++ [{ url := url, method := method, err := none, body := none,
                           header := some w.headers.length,
                           httpClient := some w.clients.length,
                           response := none, handlers := [] }],
      clients := w.clients ++ [{ Transport := none, Timeout := 1 * minute }],
      headers := w.headers ++ [[]] },
   w.reqs.length)

/-- `POST(url)`. -/
def POST (url : String) (w : World) : World × Ptr :=
  ({ w with
      reqs := w.reqs ++ [{ url := url, method := "POST", err := none, body := none,
                           header := some w.headers.length,
                           httpClient := some w.clients.length,
                           response := none, handlers := [] }],
      clients := w.clients ++ [{ Transport := none, Timeout := 1 * minute }],
      headers := w.headers ++ [[]] },
   w.reqs.length)

/-- `GET(url)`. -/
def GET (url : String) (w : World) : World × Ptr :=
  ({ w with
      reqs := w.reqs ++ [{ url := url, method := "GET", err := none, body := none,
                           header := some w.headers.length,
                           httpClient := some w.clients.length,
                           response := none, handlers := [] }],
      clients := w.clients ++ [{ Transport := none, Timeout := 1 * minute }],
      headers := w.headers ++ [[]] },
   w.reqs.length)

/-- `(*Request).Proxy`. -/
def Proxy (r : Ptr) (url : Option String) (w : World) : Option (World × Ptr) :=
  (w.reqs[r]?).bind fun q =>
    if q.err ≠ none then some (w, r)
    else
      q.httpClient.bind fun cp =>
        (w.clients[cp]?).map fun c =>
          ({ w with clients :=
              w.clients.set cp { c with Transport := some (.transportWithProxy url) } }, r)

/-- `(*Request).Timeout`. -/
def Timeout (r : Ptr) (dur : Int) (w : World) : Option (World × Ptr) :=
  (w.reqs[r]?).bind fun q =>
    if q.err ≠ none then some (w, r)
    else
      q.httpClient.bind fun cp =>
        (w.clients[cp]?).map fun c =>
          ({ w with clients := w.clients.set cp { c with Timeout := dur } }, r)

/-- `(*Request).Header`: the builder takes the caller's map reference. -/
def Header (r : Ptr) (header : Option Ptr) (w : World) : Option (World × Ptr) :=
  (w.reqs[r]?).bind fun q =>
    if q.err ≠ none then some (w, r)
    else some (setReq w r { q with header := header }, r)

/-- `(*Request).SetHeader`. -/
def SetHeader (env : Env) (r : Ptr) (key value : String) (w : World) : Option (World × Ptr) :=
  (w.reqs[r]?).bind fun q =>
    if q.err ≠ none then some (w, r)
    else
      q.header.bind fun hp =>
        (w.headers[hp]?).map fun m =>
          ({ w with headers := w.headers.set hp (HeaderMap.Set env m key value) }, r)

/-- `(*Request).ContentType`. -/
def ContentType (env : Env) (r : Ptr) (contentType : String) (w : World) :
    Option (World × Ptr) :=
  (w.reqs[r]?).bind fun q =>
    if q.err ≠ none then some (w, r)
    else
      q.header.bind fun hp =>
        (w.headers[hp]?).map fun m =>
          ({ w with headers := w.headers.set hp (HeaderMap.Set env m "Content-Type" contentType) }, r)

/-- `(*Request).HTTPClient`. -/
def HTTPClient (r : Ptr) (client : Option Ptr) (w : World) : Option (World × Ptr) :=
  (w.reqs[r]?).bind fun q =>
    if q.err ≠ none then some (w, r)
    else some (setReq w r { q with httpClient := client }, r)

/-- The zero value of `Request` with only `body` set: `&Request{body: b}`. -/
def onlyBody (b : Reader) : Request :=
  { url := "", method := "", err := none, body := some b, header := none,
    httpClient := none, response := none, handlers := [] }

/-- `(*Request).Body`: `return &Request{body: strings.NewReader(body)}`. -/
def Body (r : Ptr) (body : String) (w : World) : Option (World × Ptr) :=
  (w.reqs[r]?).bind fun q =>
    if q.err ≠ none then some (w, r)
    else some ({ w with reqs := w.reqs ++ [onlyBody (.stringsReader body)] }, w.reqs.length)

/-- `(*Request).BodyBytes`: `return &Request{body: bytes.NewBuffer(body)}`. -/
def BodyBytes (r : Ptr) (body : Bytes) (w : World) : Option (World × Ptr) :=
  (w.reqs[r]?).bind fun q =>
    if q.err ≠ none then some (w, r)
    else some ({ w with reqs := w.reqs ++ [onlyBody (.bytesBuffer body)] }, w.reqs.length)

/-- `(*Request).BodyMarshal`. -/
def BodyMarshal (env : Env) (r : Ptr) (body : GoValue) (w : World) : Option (World × Ptr) :=
  (w.reqs[r]?).bind fun q =>
    if q.err ≠ none then some (w, r)
    else
      let b := (env.jsonMarshal body).1
      let q1 : Request :=
        match (env.jsonMarshal body).2 with
        | some msg => { q with err := some (.requester { Op := "BodyMarshal", Err := msg }) }
        | none => q
      some (setReq w r { q1 with body := some (.bytesBuffer b) }, r)

/-- `(*Request).closeBody`. -/
def closeBody (r : Ptr) (w : World) : Option World :=
  (w.reqs[r]?).bind fun q =>
    q.response.bind fun resp =>
      match resp.Body with
      | none => some w
      | some b =>
        match b.Close with
        | some msg => setErr w r { Op := "closeBody", Err := msg }
        | none => some w

/-- Assignment to `r.response.Body`'s state after a read. -/
def setBody (w : World) (r : Ptr) (b : BodyStream) : Option World :=
  (w.reqs[r]?).bind fun q =>
    q.response.map fun resp =>
      setReq w r { q with response := some { resp with Body := some b } }

/-- Assignment `r.response = resp`. -/
def setResponse (w : World) (r : Ptr) (resp : Option Response) : Option World :=
  (w.reqs[r]?).map fun q => setReq w r { q with response := resp }

/-- `(*Request).newRequestWithContext`. -/
def newRequestWithContext (env : Env) (r : Ptr) (ctx : Option Context) (w : World) :
    Option (Except GoError HTTPRequest) :=
  (w.reqs[r]?).map fun q =>
    match env.NewRequestWithContext ctx q.method q.url q.body with
    | .error e => .error e
    | .ok req => .ok { req with Header := q.header }

/-- `(*Request).newRequest`; `http.NewRequest` is `http.NewRequestWithContext`
under `context.Background()`. -/
def newRequest (env : Env) (r : Ptr) (w : World) : Option (Except GoError HTTPRequest) :=
  (w.reqs[r]?).map fun q =>
    match env.NewRequestWithContext (some .background) q.method q.url q.body with
    | .error e => .error e
    | .ok req => .ok { req with Header := q.header }

/-- `(*Request).do`: `r.httpClient.Do(req)`, which dereferences the client. The
call is appended to `wire`. -/
def do_ (env : Env) (r : Ptr) (req : HTTPRequest) (w : World) :
    Option (World × Option Response × Option GoError) :=
  (w.reqs[r]?).bind fun q =>
    q.httpClient.bind fun cp =>
      (w.clients[cp]?).map fun c =>
        ({ w with wire := w.wire ++ [{ client := c, req := req,
                                       header := req.Header.bind fun hp => w.headers[hp]? }] },
         env.clientDo c req (req.Header.bind fun hp => w.headers[hp]?))

/-! ## handler.go -/

/-- The body of each handler closure, applied to the builder at `r`. -/
def handler.run (env : Env) (r : Ptr) (w : World) : handler → Option World
  | .expectCodeHandler code =>
    (w.reqs[r]?).bind fun q =>
      match q.response with
      | none => setErr w r { Op := "ExpectCode", Err := "response is nil" }
      | some resp =>
        if resp.StatusCode ≠ code then
          setErr w r { Op := "ExpectCode",
                       Err := "expect code " ++ fmtD code ++ ", got " ++ fmtD resp.StatusCode }
        else some w
  | .cookiesHandler cookies =>
    (w.reqs[r]?).bind fun q =>
      match q.response with
      | none => setErr w r { Op := "ToCookies", Err := "response is nil" }
      | some resp => store w cookies (.cookieList resp.cookies)
  | .decodeToAnyHandler v =>
    (w.reqs[r]?).bind fun q =>
      match q.response with
      | none => setErr w r { Op := "Decode", Err := "response is nil" }
      | some resp =>
        resp.Body.bind fun b =>
          (setBody w r (env.jsonDecode b (v.bind fun a => w.vars[a]?)).rest).bind fun w1 =>
            (match v, (env.jsonDecode b (v.bind fun a => w.vars[a]?)).value with
              | some a, some x => store w1 (some a) x
              | _, _ => some w1).bind fun w2 =>
              (match (env.jsonDecode b (v.bind fun a => w.vars[a]?)).err with
                | some msg => setErr w2 r { Op := "Decode", Err := msg }
                | none => some w2).bind fun w3 =>
                closeBody r w3
  | .decodeToStringHandler v =>
    (w.reqs[r]?).bind fun q =>
      match q.response with
      | none => setErr w r { Op := "ToString", Err := "response is nil" }
      | some resp =>
        resp.Body.bind fun b =>
          (setBody w r (ReadAll b).1).bind fun w1 =>
            match (ReadAll b).2.2 with
            | some msg => (setErr w1 r { Op := "ToJSON", Err := msg }).bind (closeBody r)
            | none => (store w1 v (.str (ReadAll b).2.1)).bind (closeBody r)
  | .decodeToBytesHandler v =>
    (w.reqs[r]?).bind fun q =>
      match q.response with
      | none => setErr w r { Op := "ToBytes", Err := "response is nil" }
      | some resp =>
        resp.Body.bind fun b =>
          (setBody w r (ReadAll b).1).bind fun w1 =>
            match (ReadAll b).2.2 with
            | some msg => (setErr w1 r { Op := "ToBytes", Err := msg }).bind (closeBody r)
            | none => (store w1 v (.byteSlice (ReadAll b).2.1)).bind (closeBody r)

/-- `(*Request).ExpectCode`. -/
def ExpectCode (r : Ptr) (code : Int) (w : World) : Option (World × Ptr) :=
  (w.reqs[r]?).bind fun q =>
    if q.err ≠ none then some (w, r)
    else some (setReq w r { q with handlers := q.handlers ++ [some (.expectCodeHandler code)] }, r)

/-- `(*Request).ToCookies`. -/
def ToCookies (r : Ptr) (cookie : Option Ptr) (w : World) : Option (World × Ptr) :=
  (w.reqs[r]?).bind fun q =>
    if q.err ≠ none then some (w, r)
    else some (setReq w r { q with handlers := q.handlers ++ [some (.cookiesHandler cookie)] }, r)

/-- `(*Request).Decode`. -/
def Decode (r : Ptr) (v : Option Ptr) (w : World) : Option (World × Ptr) :=
  (w.reqs[r]?).bind fun q =>
    if q.err ≠ none then some (w, r)
    else some (setReq w r { q with handlers := q.handlers ++ [some (.decodeToAnyHandler v)] }, r)

/-- `(*Request).ToString`. -/
def ToString (r : Ptr) (v : Option Ptr) (w : World) : Option (World × Ptr) :=
  (w.reqs[r]?).bind fun q =>
    if q.err ≠ none then some (w, r)
    else some (setReq w r { q with handlers := q.handlers ++ [some (.decodeToStringHandler v)] }, r)

/-- `(*Request).ToBytes`. -/
def ToBytes (r : Ptr) (v : Option Ptr) (w : World) : Option (World × Ptr) :=
  (w.reqs[r]?).bind fun q =>
    if q.err ≠ none then some (w, r)
    else some (setReq w r { q with handlers := q.handlers ++ [some (.decodeToBytesHandler v)] }, r)

/-! ## Execution -/

/-- The loop of `chainHandlers` over an already evaluated range expression. -/
def rangeHandlers (env : Env) (r : Ptr) : List (Option handler) → World → Option World
  | [], w => some w
  | none :: hs, w => rangeHandlers env r hs w
  | some h :: hs, w => (h.run env r w).bind fun w1 => rangeHandlers env r hs w1

/-- `(*Request).chainHandlers`. -/
def chainHandlers (env : Env) (r : Ptr) (w : World) : Option World :=
  (w.reqs[r]?).bind fun q => rangeHandlers env r q.handlers w

/-- `(*Request).Do`. -/
def Do (env : Env) (r : Ptr) (w : World) : Option (World × Option GoError) :=
  (w.reqs[r]?).bind fun q =>
    match q.err with
    | some e => some (w, some e)
    | none =>
      (newRequest env r w).bind fun res =>
        match res with
        | .error e => some (w, some e)
        | .ok req =>
          (do_ env r req w).bind fun out =>
            (setResponse out.1 r out.2.1).bind fun w1 =>
              match out.2.2 with
              | some e => some (w1, some e)
              | none =>
                (chainHandlers env r w1).bind fun w2 =>
                  (w2.reqs[r]?).map fun q2 => (w2, q2.err)

/-- `(*Request).DoWithContext`. -/
def DoWithContext (env : Env) (r : Ptr) (ctx : Option Context) (w : World) :
    Option (World × Option GoError) :=
  (newRequestWithContext env r ctx w).bind fun res =>
    match res with
    | .error e => some (w, some e)
    | .ok req =>
      (do_ env r req w).bind fun out =>
        (setResponse out.1 r out.2.1).bind fun w1 =>
          match out.2.2 with
          | some e => some (w1, some e)
          | none => (chainHandlers env r w1).map fun w2 => (w2, none)

/-- The sticky error of the builder at `r`. -/
def errOf (w : World) (r : Ptr) : Option GoError :=
  (w.reqs[r]?).bind fun q => q.err

/-! ## Worlds used as concrete inputs -/

/-- Nothing allocated, nothing sent. -/
def emptyWorld : World :=
  { reqs := [], clients := [], headers := [], vars := [], wire := [] }

/-- A collaborator set: keys are kept as given, only `record` values serialise
(to fixed bytes), the decoder yields the record `a = 1` from any stream, every
request is well formed, and the server answers 404 with the body `{"a":1}`. -/
def env404 : Env :=
  { canonicalKey := fun k => k
    jsonMarshal := fun v =>
      match v with
      | .record _ => ([123, 125], none)
      | _ => ([], some "json: unsupported type")
    jsonDecode := fun b _ =>
      { rest := { b with unread := [] }, value := some (.record [("a", 1)]), err := none }
    NewRequestWithContext := fun ctx method url body =>
      match ctx with
      | none => .error (.foreign "net/http: nil Context")
      | some c => .ok { ctx := c, Method := method, URL := url, Body := body, Header := none }
    clientDo := fun _ _ _ =>
      (some { StatusCode := 404,
              Body := some { unread := [123, 34, 97, 34, 58, 49, 125], readErr := none,
                             closeErr := none },
              cookies := [] }, none) }

/-- A collaborator set whose transport cannot connect and whose request
constructor rejects an empty URL. -/
def envDown : Env :=
  { env404 with
    NewRequestWithContext := fun ctx method url body =>
      match ctx with
      | none => .error (.foreign "net/http: nil Context")
      | some c =>
        if url = "" then .error (.foreign "parse: empty url")
        else .ok { ctx := c, Method := method, URL := url, Body := body, Header := none }
    clientDo := fun _ _ _ => (none, some (.foreign "dial tcp: connection refused")) }

/-- The world after `GET("http://example/ok")` with one caller variable. -/
def freshWorld : World :=
  (GET "http://example/ok" { emptyWorld with vars := [.zero] }).1

/-- The world after `GET("http://example/ok").BodyMarshal(ch)` for a value that
does not serialise: builder 0 carries a sticky error. -/
def failedWorld : World :=
  { reqs := [{ url := "http://example/ok", method := "GET",
               err := some (.requester { Op := "BodyMarshal", Err := "json: unsupported type" }),
               body := some (.bytesBuffer []), header := some 0, httpClient := some 0,
               response := none, handlers := [] }],
    clients := [{ Transport := none, Timeout := 1 * minute }],
    headers := [[]],
    vars := [.zero],
    wire := [] }

/-! ## Auxiliary notions and further worlds -/

/-- The text `sub` occurs in `s` as a contiguous run of characters. -/
def occursIn (sub s : String) : Prop :=
  sub.data <:+: s.data

instance (sub s : String) : Decidable (occursIn sub s) :=
  inferInstanceAs (Decidable (sub.data <:+: s.data))

/-- A builder that has received a 404 response with body `{"a":1}` and has
`ExpectCode(200)` and `Decode(&v)` registered. -/
def answeredWorld : World :=
  { reqs := [{ url := "http://example/ok", method := "GET", err := none, body := none,
               header := some 0, httpClient := some 0,
               response := some { StatusCode := 404,
                                  Body := some { unread := [123, 34, 97, 34, 58, 49, 125],
                                                 readErr := none, closeErr := none },
                                  cookies := [] },
               handlers := [some (.expectCodeHandler 200), some (.decodeToAnyHandler (some 0))] }],
    clients := [{ Transport := none, Timeout := 1 * minute }],
    headers := [[]],
    vars := [.zero],
    wire := [] }

/-- The world right after `r.response, err = r.do(req)` on builder `q` at `r`:
the call is on the transport log and the builder holds `resp`; nothing else
differs from `w`. -/
def afterSend (w : World) (r : Ptr) (q : Request) (c : Client) (req : HTTPRequest)
    (resp : Option Response) : World :=
  { w with
    reqs := w.reqs.set r { q with response := resp },
    wire := w.wire ++ [{ client := c, req := { req with Header := q.header },
                         header := q.header.bind fun hp => w.headers[hp]? }] }

/-- A fresh `GET` builder with `ExpectCode(200)` and `Decode(&v)` registered. -/
def registeredWorld : World :=
  { reqs := [{ url := "http://example/ok", method := "GET", err := none, body := none,
               header := some 0, httpClient := some 0, response := none,
               handlers := [some (.expectCodeHandler 200), some (.decodeToAnyHandler (some 0))] }],
    clients := [{ Transport := none, Timeout := 1 * minute }],
    headers := [[]],
    vars := [.zero],
    wire := [] }

/-- The world `registeredWorld` turns into when the request is sent under
context `ctx` and the 404 answer has gone through both handlers. -/
def doneWorld (ctx : Context) : World :=
  { reqs := [{ url := "http://example/ok", method := "GET",
               err := some (.requester { Op := "ExpectCode", Err := "expect code 200, got 404" }),
               body := none, header := some 0, httpClient := some 0,
               response := some { StatusCode := 404,
                                  Body := some { unread := [], readErr := none, closeErr := none },
                                  cookies := [] },
               handlers := [some (.expectCodeHandler 200), some (.decodeToAnyHandler (some 0))] }],
    clients := [{ Transport := none, Timeout := 1 * minute }],
    headers := [[]],
    vars := [.record [("a", 1)]],
    wire := [{ client := { Transport := none, Timeout := 1 * minute },
               req := { ctx := ctx, Method := "GET", URL := "http://example/ok",
                        Body := none, Header := some 0 },
               header := some [] }] }

/-- No handler of the list, run in order from `w`, changes the sticky error of
the builder at `r`. -/
def errUntouched (env : Env) (r : Ptr) : List handler → World → Prop
  | [], _ => True
  | h :: hs, w =>
    ∀ w1, h.run env r w = some w1 → errOf w1 r = errOf w r ∧ errUntouched env r hs w1

/-- The response body `{"a":1}` on a stream that reads and closes cleanly. -/
def bodyA1 : BodyStream :=
  { unread := [123, 34, 97, 34, 58, 49, 125], readErr := none, closeErr := none }

/-- A response whose body stream fails with "unexpected EOF" after two bytes. -/
def brokenBodyWorld : World :=
  { reqs := [{ url := "http://example/ok", method := "GET", err := none, body := none,
               header := some 0, httpClient := some 0,
               response := some { StatusCode := 200,
                                  Body := some { unread := [123, 34],
                                                 readErr := some "unexpected EOF",
                                                 closeErr := none },
                                  cookies := [] },
               handlers := [] }],
    clients := [{ Transport := none, Timeout := 1 * minute }],
    headers := [[]],
    vars := [.zero],
    wire := [] }

/-- The builder at `r` holds a response whose body stream is present. -/
def holdsBody (w : World) (r : Ptr) : Prop :=
  ∃ q resp b, w.reqs[r]? = some q ∧ q.response = some resp ∧ resp.Body = some b

/-- The destination a handler closes over is one of the first `n` caller
variables; the target of `Decode` may also be nil. -/
def destValid (n : Nat) : handler → Prop
  | .expectCodeHandler _ => True
  | .cookiesHandler p => ∃ a, p = some a ∧ a < n
  | .decodeToAnyHandler p => ∀ a, p = some a → a < n
  | .decodeToStringHandler p => ∃ a, p = some a ∧ a < n
  | .decodeToBytesHandler p => ∃ a, p = some a ∧ a < n

/-! ## Handlers keep every builder address valid -/

theorem setErr_reqs_length {w w1 : World} {r : Ptr} {e : Error}
    (h : setErr w r e = some w1) : w1.reqs.length = w.reqs.length := by
  unfold setErr at h
  cases hq : w.reqs[r]? with
  | none => simp [hq] at h
  | some q =>
    simp [hq, setReq] at h
    subst h
    simp

theorem store_reqs {w w1 : World} {p : Option Ptr} {val : GoValue}
    (h : store w p val = some w1) : w1.reqs = w.reqs := by
  unfold store at h
  cases p with
  | none => simp at h
  | some a =>
    by_cases ha : a < w.vars.length
    · simp [ha] at h
      subst h
      rfl
    · simp [ha] at h

theorem setBody_reqs_length {w w1 : World} {r : Ptr} {b : BodyStream}
    (h : setBody w r b = some w1) : w1.reqs.length = w.reqs.length := by
  unfold setBody at h
  cases hq : w.reqs[r]? with
  | none => simp [hq] at h
  | some q =>
    cases hr : q.response with
    | none => simp [hq, hr] at h
    | some resp =>
      simp [hq, hr, setReq] at h
      subst h
      simp

theorem closeBody_reqs_length {w w1 : World} {r : Ptr}
    (h : closeBody r w = some w1) : w1.reqs.length = w.reqs.length := by
  unfold closeBody at h
  cases hq : w.reqs[r]? with
  | none => simp [hq] at h
  | some q =>
    cases hr : q.response with
    | none => simp [hq, hr] at h
    | some resp =>
      cases hb : resp.Body with
      | none =>
        simp [hq, hr, hb] at h
        subst h
        rfl
      | some b =>
        cases hc : b.Close with
        | none =>
          simp [hq, hr, hb, hc] at h
          subst h
          rfl
        | some msg =>
          simp [hq, hr, hb, hc] at h
          exact setErr_reqs_length h

theorem handler_run_reqs_length {env : Env} {r : Ptr} {w w1 : World} {h : handler}
    (hrun : h.run env r w = some w1) : w1.reqs.length = w.reqs.length := by
  cases hq : w.reqs[r]? with
  | none => cases h <;> simp [handler.run, hq] at hrun
  | some q =>
    cases hr : q.response with
    | none =>
      cases h <;> simp [handler.run, hq, hr] at hrun <;> exact setErr_reqs_length hrun
    | some resp =>
      cases h with
      | expectCodeHandler code =>
        by_cases hc : resp.StatusCode = code
        · simp [handler.run, hq, hr, hc] at hrun
          subst hrun
          rfl
        · simp [handler.run, hq, hr, hc] at hrun
          exact setErr_reqs_length hrun
      | cookiesHandler cookies =>
        simp [handler.run, hq, hr] at hrun
        rw [store_reqs hrun]
      | decodeToAnyHandler v =>
        simp only [handler.run, hq, hr, Option.bind_eq_some, Option.some_bind] at hrun
        obtain ⟨b, -, w2, h2, w3, h3, w4, h4, h5⟩ := hrun
        have e2 := setBody_reqs_length h2
        have e3 : w3.reqs.length = w2.reqs.length := by
          split at h3
          · rw [store_reqs h3]
          · cases h3
            rfl
        have e4 : w4.reqs.length = w3.reqs.length := by
          cases hv : (env.jsonDecode b (v.bind fun a => w.vars[a]?)).err with
          | none =>
            simp [hv] at h4
            subst h4
            rfl
          | some msg =>
            simp [hv] at h4
            exact setErr_reqs_length h4
        rw [closeBody_reqs_length h5, e4, e3, e2]
      | decodeToStringHandler v =>
        simp only [handler.run, hq, hr, Option.bind_eq_some, Option.some_bind] at hrun
        obtain ⟨b, -, w2, h2, h3⟩ := hrun
        have e2 := setBody_reqs_length h2
        cases hv : (ReadAll b).2.2 with
        | none =>
          simp only [hv, Option.bind_eq_some] at h3
          obtain ⟨w3, h3, h4⟩ := h3
          rw [closeBody_reqs_length h4, store_reqs h3, e2]
        | some msg =>
          simp only [hv, Option.bind_eq_some] at h3
          obtain ⟨w3, h3, h4⟩ := h3
          rw [closeBody_reqs_length h4, setErr_reqs_length h3, e2]
      | decodeToBytesHandler v =>
        simp only [handler.run, hq, hr, Option.bind_eq_some, Option.some_bind] at hrun
        obtain ⟨b, -, w2, h2, h3⟩ := hrun
        have e2 := setBody_reqs_length h2
        cases hv : (ReadAll b).2.2 with
        | none =>
          simp only [hv, Option.bind_eq_some] at h3
          obtain ⟨w3, h3, h4⟩ := h3
          rw [closeBody_reqs_length h4, store_reqs h3, e2]
        | some msg =>
          simp only [hv, Option.bind_eq_some] at h3
          obtain ⟨w3, h3, h4⟩ := h3
          rw [closeBody_reqs_length h4, setErr_reqs_length h3, e2]

theorem rangeHandlers_reqs_length {env : Env} {r : Ptr} (hs : List (Option handler)) :
    ∀ {w w1 : World}, rangeHandlers env r hs w = some w1 → w1.reqs.length = w.reqs.length := by
  induction hs with
  | nil =>
    intro w w1 h
    simp [rangeHandlers] at h
    subst h
    rfl
  | cons a t ih =>
    intro w w1 h
    cases a with
    | none => exact ih (by simpa [rangeHandlers] using h)
    | some hd =>
      simp only [rangeHandlers, Option.bind_eq_some] at h
      obtain ⟨w2, h2, h3⟩ := h
      rw [ih h3, handler_run_reqs_length h2]

theorem chainHandlers_reqs_length {env : Env} {r : Ptr} {w w1 : World}
    (h : chainHandlers env r w = some w1) : w1.reqs.length = w.reqs.length := by
  simp only [chainHandlers, Option.bind_eq_some] at h
  obtain ⟨q, -, h2⟩ := h
  exact rangeHandlers_reqs_length _ h2

/-! ## Handlers return when their destinations exist -/

theorem setErr_total {w : World} {r : Ptr} (hb : holdsBody w r) (e : Error) :
    ∃ w1, setErr w r e = some w1 ∧ holdsBody w1 r ∧ w1.vars = w.vars := by
  obtain ⟨q, resp, b, hq, hr, hB⟩ := hb
  have hlt : r < w.reqs.length := (List.getElem?_eq_some.1 hq).1
  refine ⟨setReq w r { q with err := some (.requester e) }, by simp [setErr, hq], ?_, rfl⟩
  exact ⟨{ q with err := some (.requester e) }, resp, b, by simp [setReq, hlt], hr, hB⟩

theorem store_total {w : World} {r : Ptr} {a : Ptr} (hb : holdsBody w r)
    (ha : a < w.vars.length) (x : GoValue) :
    ∃ w1, store w (some a) x = some w1 ∧ holdsBody w1 r ∧ w1.vars.length = w.vars.length := by
  refine ⟨{ w with vars := w.vars.set a x }, by simp [store, ha], hb, by simp⟩

theorem setBody_total {w : World} {r : Ptr} (hb : holdsBody w r) (b1 : BodyStream) :
    ∃ w1, setBody w r b1 = some w1 ∧ holdsBody w1 r ∧ w1.vars = w.vars := by
  obtain ⟨q, resp, b, hq, hr, hB⟩ := hb
  have hlt : r < w.reqs.length := (List.getElem?_eq_some.1 hq).1
  refine ⟨setReq w r { q with response := some { resp with Body := some b1 } },
    by simp [setBody, hq, hr], ?_, rfl⟩
  exact ⟨{ q with response := some { resp with Body := some b1 } },
    { resp with Body := some b1 }, b1, by simp [setReq, hlt], rfl, rfl⟩

theorem closeBody_total {w : World} {r : Ptr} (hb : holdsBody w r) :
    ∃ w1, closeBody r w = some w1 ∧ holdsBody w1 r ∧ w1.vars = w.vars := by
  obtain ⟨q, resp, b, hq, hr, hB⟩ := hb
  cases hc : b.Close with
  | none => exact ⟨w, by simp [closeBody, hq, hr, hB, hc], ⟨q, resp, b, hq, hr, hB⟩, rfl⟩
  | some msg =>
    obtain ⟨w1, h1, hb1, hv1⟩ :=
      setErr_total (w := w) (r := r) ⟨q, resp, b, hq, hr, hB⟩ { Op := "closeBody", Err := msg }
    exact ⟨w1, by simp [closeBody, hq, hr, hB, hc, h1], hb1, hv1⟩

theorem handler_run_total (env : Env) {w : World} {r : Ptr} (h : handler)
    (hb : holdsBody w r) (hd : destValid w.vars.length h) :
    ∃ w1, h.run env r w = some w1 ∧ holdsBody w1 r ∧ w1.vars.length = w.vars.length := by
  have hb0 := hb
  obtain ⟨q, resp, b, hq, hr, hB⟩ := hb
  cases h with
  | expectCodeHandler code =>
    by_cases hc : resp.StatusCode = code
    · exact ⟨w, by simp [handler.run, hq, hr, hc], hb0, rfl⟩
    · obtain ⟨w1, h1, hb1, hv1⟩ := setErr_total hb0
        { Op := "ExpectCode",
          Err := "expect code " ++ fmtD code ++ ", got " ++ fmtD resp.StatusCode }
      exact ⟨w1, by simp [handler.run, hq, hr, hc, h1], hb1, by rw [hv1]⟩
  | cookiesHandler p =>
    obtain ⟨a, rfl, ha⟩ := hd
    obtain ⟨w1, h1, hb1, hv1⟩ := store_total hb0 ha (.cookieList resp.cookies)
    exact ⟨w1, by simp [handler.run, hq, hr, h1], hb1, hv1⟩
  | decodeToAnyHandler p =>
    obtain ⟨w1, h1, hb1, hv1⟩ :=
      setBody_total hb0 (env.jsonDecode b (p.bind fun a => w.vars[a]?)).rest
    have step2 : ∃ w2,
        (match p, (env.jsonDecode b (p.bind fun a => w.vars[a]?)).value with
          | some a, some x => store w1 (some a) x
          | _, _ => some w1) = some w2 ∧ holdsBody w2 r ∧ w2.vars.length = w.vars.length := by
      split
      · rename_i a x _
        obtain ⟨w2, h2, hb2, hv2⟩ :=
          store_total (a := a) hb1 (by rw [hv1]; exact hd a rfl) x
        exact ⟨w2, h2, hb2, by rw [hv2, hv1]⟩
      · exact ⟨w1, rfl, hb1, by rw [hv1]⟩
    obtain ⟨w2, h2, hb2, hv2⟩ := step2
    have step3 : ∃ w3,
        (match (env.jsonDecode b (p.bind fun a => w.vars[a]?)).err with
          | some msg => setErr w2 r { Op := "Decode", Err := msg }
          | none => some w2) = some w3 ∧ holdsBody w3 r ∧ w3.vars.length = w.vars.length := by
      split
      · rename_i msg _
        obtain ⟨w3, h3, hb3, hv3⟩ := setErr_total hb2 { Op := "Decode", Err := msg }
        exact ⟨w3, h3, hb3, by rw [hv3, hv2]⟩
      · exact ⟨w2, rfl, hb2, hv2⟩
    obtain ⟨w3, h3, hb3, hv3⟩ := step3
    obtain ⟨w4, h4, hb4, hv4⟩ := closeBody_total hb3
    exact ⟨w4, by simp [handler.run, hq, hr, hB, h1, h2, h3, h4], hb4, by rw [hv4, hv3]⟩
  | decodeToStringHandler p =>
    obtain ⟨a, rfl, ha⟩ := hd
    obtain ⟨w1, h1, hb1, hv1⟩ := setBody_total hb0 (ReadAll b).1
    cases he : (ReadAll b).2.2 with
    | none =>
      obtain ⟨w2, h2, hb2, hv2⟩ :=
        store_total (a := a) hb1 (by rw [hv1]; exact ha) (.str (ReadAll b).2.1)
      obtain ⟨w3, h3, hb3, hv3⟩ := closeBody_total hb2
      exact ⟨w3, by simp [handler.run, hq, hr, hB, h1, he, h2, h3], hb3, by rw [hv3, hv2, hv1]⟩
    | some msg =>
      obtain ⟨w2, h2, hb2, hv2⟩ := setErr_total hb1 { Op := "ToJSON", Err := msg }
      obtain ⟨w3, h3, hb3, hv3⟩ := closeBody_total hb2
      exact ⟨w3, by simp [handler.run, hq, hr, hB, h1, he, h2, h3], hb3, by rw [hv3, hv2, hv1]⟩
  | decodeToBytesHandler p =>
    obtain ⟨a, rfl, ha⟩ := hd
    obtain ⟨w1, h1, hb1, hv1⟩ := setBody_total hb0 (ReadAll b).1
    cases he : (ReadAll b).2.2 with
    | none =>
      obtain ⟨w2, h2, hb2, hv2⟩ :=
        store_total (a := a) hb1 (by rw [hv1]; exact ha) (.byteSlice (ReadAll b).2.1)
      obtain ⟨w3, h3, hb3, hv3⟩ := closeBody_total hb2
      exact ⟨w3, by simp [handler.run, hq, hr, hB, h1, he, h2, h3], hb3, by rw [hv3, hv2, hv1]⟩
    | some msg =>
      obtain ⟨w2, h2, hb2, hv2⟩ := setErr_total hb1 { Op := "ToBytes", Err := msg }
      obtain ⟨w3, h3, hb3, hv3⟩ := closeBody_total hb2
      exact ⟨w3, by simp [handler.run, hq, hr, hB, h1, he, h2, h3], hb3, by rw [hv3, hv2, hv1]⟩

theorem rangeHandlers_total (env : Env) (r : Ptr) (hs : List (Option handler)) :
    ∀ w : World, holdsBody w r → (∀ h, some h ∈ hs → destValid w.vars.length h) →
      ∃ w1, rangeHandlers env r hs w = some w1 := by
  induction hs with
  | nil =>
    intro w _ _
    exact ⟨w, rfl⟩
  | cons a t ih =>
    intro w hb hd
    cases a with
    | none =>
      obtain ⟨w1, h1⟩ := ih w hb (fun h hm => hd h (List.mem_cons_of_mem _ hm))
      exact ⟨w1, by simpa [rangeHandlers] using h1⟩
    | some hd0 =>
      obtain ⟨w1, h1, hb1, hv1⟩ := handler_run_total env hd0 hb (hd hd0 (List.mem_cons_self _ _))
      obtain ⟨w2, h2⟩ := ih w1 hb1 (fun h hm => by
        rw [hv1]
        exact hd h (List.mem_cons_of_mem _ hm))
      exact ⟨w2, by simp [rangeHandlers, h1, h2]⟩

/-! ## Configuration after a sticky error -/

/-- C3: once the sticky error of a builder is set, each of the nine configuration
methods, with any arguments, returns the builder itself and leaves the whole
world as it was: url, method, header collection, body, transport collaborator,
handler list and sticky error of the builder included. -/
theorem config_frozen_after_error (env : Env) (w : World) (r : Ptr) (q : Request)
    (hq : w.reqs[r]? = some q) (he : q.err ≠ none) :
    (∀ url, Proxy r url w = some (w, r)) ∧
    (∀ dur, Timeout r dur w = some (w, r)) ∧
    (∀ header, Header r header w = some (w, r)) ∧
    (∀ key value, SetHeader env r key value w = some (w, r)) ∧
    (∀ contentType, ContentType env r contentType w = some (w, r)) ∧
    (∀ client, HTTPClient r client w = some (w, r)) ∧
    (∀ body, Body r body w = some (w, r)) ∧
    (∀ body, BodyBytes r body w = some (w, r)) ∧
    (∀ body, BodyMarshal env r body w = some (w, r)) := by
  refine ⟨?_, ?_, ?_, ?_, ?_, ?_, ?_, ?_, ?_⟩ <;> intros
  · simp [Proxy, hq, he]
  · simp [Timeout, hq, he]
  · simp [Header, hq, he]
  · simp [SetHeader, hq, he]
  · simp [ContentType, hq, he]
  · simp [HTTPClient, hq, he]
  · simp [Body, hq, he]
  · simp [BodyBytes, hq, he]
  · simp [BodyMarshal, hq, he]

/-- C3 at the builder left by a failed `BodyMarshal`. -/
theorem config_frozen_after_error_witness :
    (∀ url, Proxy 0 url failedWorld = some (failedWorld, 0)) ∧
    (∀ dur, Timeout 0 dur failedWorld = some (failedWorld, 0)) ∧
    (∀ header, Header 0 header failedWorld = some (failedWorld, 0)) ∧
    (∀ key value, SetHeader env404 0 key value failedWorld = some (failedWorld, 0)) ∧
    (∀ contentType, ContentType env404 0 contentType failedWorld = some (failedWorld, 0)) ∧
    (∀ client, HTTPClient 0 client failedWorld = some (failedWorld, 0)) ∧
    (∀ body, Body 0 body failedWorld = some (failedWorld, 0)) ∧
    (∀ body, BodyBytes 0 body failedWorld = some (failedWorld, 0)) ∧
    (∀ body, BodyMarshal env404 0 body failedWorld = some (failedWorld, 0)) :=
  config_frozen_after_error env404 failedWorld 0 _ rfl (by decide)

/-- C6: with the sticky error `e` already set, `Do` returns `e` and leaves the
world as it was (no call reaches the transport log, no destination variable,
response or error changes), whatever the collaborators are. -/
theorem Do_returns_sticky_error (env : Env) (w : World) (r : Ptr) (q : Request) (e : GoError)
    (hq : w.reqs[r]? = some q) (he : q.err = some e) :
    Do env r w = some (w, some e) ∧ ∀ env2 : Env, Do env2 r w = Do env r w := by
  constructor
  · simp [Do, hq, he]
  · intro env2
    simp [Do, hq, he]

/-- C6 at the builder left by a failed `BodyMarshal`. -/
theorem Do_returns_sticky_error_witness :
    Do env404 0 failedWorld
        = some (failedWorld,
                some (.requester { Op := "BodyMarshal", Err := "json: unsupported type" })) ∧
      ∀ env2 : Env, Do env2 0 failedWorld = Do env404 0 failedWorld :=
  Do_returns_sticky_error env404 failedWorld 0 _ _ rfl rfl

/-! ## BodyMarshal -/

/-- C9: on a builder without sticky error `BodyMarshal(v)` returns the builder
itself and rewrites only that builder: its body becomes a buffer over the bytes
the serialiser returned, its sticky error becomes `BodyMarshal: <message>` when
the serialiser failed and stays unset when it did not, and url, method, header
reference, client reference, response and handler list are kept. -/
theorem BodyMarshal_always_assigns_body (env : Env) (w : World) (r : Ptr) (q : Request)
    (v : GoValue) (hq : w.reqs[r]? = some q) (he : q.err = none) :
    ∃ q1 : Request,
      BodyMarshal env r v w = some (setReq w r q1, r) ∧
      q1.body = some (.bytesBuffer (env.jsonMarshal v).1) ∧
      (∀ msg, (env.jsonMarshal v).2 = some msg →
        q1.err = some (.requester { Op := "BodyMarshal", Err := msg })) ∧
      ((env.jsonMarshal v).2 = none → q1.err = none) ∧
      q1.url = q.url ∧ q1.method = q.method ∧ q1.header = q.header ∧
      q1.httpClient = q.httpClient ∧ q1.response = q.response ∧ q1.handlers = q.handlers := by
  cases hm : (env.jsonMarshal v).2 with
  | none =>
    refine ⟨{ q with body := some (.bytesBuffer (env.jsonMarshal v).1) }, ?_⟩
    simp [BodyMarshal, hq, he, hm]
  | some msg =>
    refine ⟨{ q with err := some (.requester { Op := "BodyMarshal", Err := msg }),
                     body := some (.bytesBuffer (env.jsonMarshal v).1) }, ?_⟩
    simp [BodyMarshal, hq, he, hm]

/-- C9 at a fresh `GET` builder and a value that does not serialise. -/
theorem BodyMarshal_always_assigns_body_witness :
    ∃ q1 : Request,
      BodyMarshal env404 0 (.other 7) freshWorld = some (setReq freshWorld 0 q1, 0) ∧
      q1.body = some (.bytesBuffer (env404.jsonMarshal (.other 7)).1) ∧
      (∀ msg, (env404.jsonMarshal (.other 7)).2 = some msg →
        q1.err = some (.requester { Op := "BodyMarshal", Err := msg })) ∧
      ((env404.jsonMarshal (.other 7)).2 = none → q1.err = none) ∧
      q1.url = "http://example/ok" ∧ q1.method = "GET" ∧ q1.header = some 0 ∧
      q1.httpClient = some 0 ∧ q1.response = none ∧ q1.handlers = [] :=
  BodyMarshal_always_assigns_body env404 freshWorld 0 _ (.other 7) rfl rfl

/-! ## Handler registration -/

/-- C2 (as amended): handler registration checks the sticky error like the
configuration methods do. On a builder whose sticky error is set, each of the
five registration methods returns the builder and changes nothing; on a builder
without sticky error each appends exactly its own handler at the end of the
handler list and changes nothing else, so the sticky error stays unset. -/
theorem handler_registration_gated (w : World) (r : Ptr) (q : Request)
    (hq : w.reqs[r]? = some q) :
    (q.err ≠ none →
      (∀ code, ExpectCode r code w = some (w, r)) ∧
      (∀ cookie, ToCookies r cookie w = some (w, r)) ∧
      (∀ v, Decode r v w = some (w, r)) ∧
      (∀ v, ToString r v w = some (w, r)) ∧
      (∀ v, ToBytes r v w = some (w, r))) ∧
    (q.err = none →
      (∀ code, ExpectCode r code w
        = some (setReq w r { q with handlers := q.handlers ++ [some (.expectCodeHandler code)] }, r)) ∧
      (∀ cookie, ToCookies r cookie w
        = some (setReq w r { q with handlers := q.handlers ++ [some (.cookiesHandler cookie)] }, r)) ∧
      (∀ v, Decode r v w
        = some (setReq w r { q with handlers := q.handlers ++ [some (.decodeToAnyHandler v)] }, r)) ∧
      (∀ v, ToString r v w
        = some (setReq w r { q with handlers := q.handlers ++ [some (.decodeToStringHandler v)] }, r)) ∧
      (∀ v, ToBytes r v w
        = some (setReq w r { q with handlers := q.handlers ++ [some (.decodeToBytesHandler v)] }, r))) := by
  constructor
  · intro he
    simp [ExpectCode, ToCookies, Decode, ToString, ToBytes, hq, he]
  · intro he
    simp [ExpectCode, ToCookies, Decode, ToString, ToBytes, hq, he]

/-- C2 (as amended) at the builder left by a failed `BodyMarshal`: nothing is
registered. -/
theorem handler_registration_gated_witness :
    (∀ code, ExpectCode 0 code failedWorld = some (failedWorld, 0)) ∧
    (∀ cookie, ToCookies 0 cookie failedWorld = some (failedWorld, 0)) ∧
    (∀ v, Decode 0 v failedWorld = some (failedWorld, 0)) ∧
    (∀ v, ToString 0 v failedWorld = some (failedWorld, 0)) ∧
    (∀ v, ToBytes 0 v failedWorld = some (failedWorld, 0)) :=
  (handler_registration_gated failedWorld 0
    { url := "http://example/ok", method := "GET",
      err := some (.requester { Op := "BodyMarshal", Err := "json: unsupported type" }),
      body := some (.bytesBuffer []), header := some 0, httpClient := some 0,
      response := none, handlers := [] } rfl).1 (by decide)

/-- C2 as stated fails: after `GET(..).BodyMarshal(ch)` has set the sticky error,
`ExpectCode(200)` (and each other registration method) leaves the handler list
empty instead of growing it to length one. -/
theorem registration_after_error_counterexample :
    BodyMarshal env404 0 (.other 0) freshWorld = some (failedWorld, 0) ∧
    errOf failedWorld 0 ≠ none ∧
    ¬ (∃ w1 q1, ExpectCode 0 200 failedWorld = some (w1, 0) ∧ w1.reqs[0]? = some q1 ∧
        q1.handlers.length = 0 + 1) ∧
    ¬ (∃ w1 q1, ToCookies 0 (some 0) failedWorld = some (w1, 0) ∧ w1.reqs[0]? = some q1 ∧
        q1.handlers.length = 0 + 1) ∧
    ¬ (∃ w1 q1, Decode 0 (some 0) failedWorld = some (w1, 0) ∧ w1.reqs[0]? = some q1 ∧
        q1.handlers.length = 0 + 1) ∧
    ¬ (∃ w1 q1, ToString 0 (some 0) failedWorld = some (w1, 0) ∧ w1.reqs[0]? = some q1 ∧
        q1.handlers.length = 0 + 1) ∧
    ¬ (∃ w1 q1, ToBytes 0 (some 0) failedWorld = some (w1, 0) ∧ w1.reqs[0]? = some q1 ∧
        q1.handlers.length = 0 + 1) := by
  have h1 : ExpectCode 0 200 failedWorld = some (failedWorld, 0) := by decide
  have h2 : ToCookies 0 (some 0) failedWorld = some (failedWorld, 0) := by decide
  have h3 : Decode 0 (some 0) failedWorld = some (failedWorld, 0) := by decide
  have h4 : ToString 0 (some 0) failedWorld = some (failedWorld, 0) := by decide
  have h5 : ToBytes 0 (some 0) failedWorld = some (failedWorld, 0) := by decide
  have hf : failedWorld.reqs[0]? = some
      { url := "http://example/ok", method := "GET",
        err := some (.requester { Op := "BodyMarshal", Err := "json: unsupported type" }),
        body := some (.bytesBuffer []), header := some 0, httpClient := some 0,
        response := none, handlers := [] } := rfl
  refine ⟨by decide, by decide, ?_, ?_, ?_, ?_, ?_⟩
  · rintro ⟨w1, q1, h, hq1, hl⟩
    rw [h1] at h
    cases h
    rw [hf] at hq1
    cases hq1
    simp at hl
  · rintro ⟨w1, q1, h, hq1, hl⟩
    rw [h2] at h
    cases h
    rw [hf] at hq1
    cases hq1
    simp at hl
  · rintro ⟨w1, q1, h, hq1, hl⟩
    rw [h3] at h
    cases h
    rw [hf] at hq1
    cases hq1
    simp at hl
  · rintro ⟨w1, q1, h, hq1, hl⟩
    rw [h4] at h
    cases h
    rw [hf] at hq1
    cases hq1
    simp at hl
  · rintro ⟨w1, q1, h, hq1, hl⟩
    rw [h5] at h
    cases h
    rw [hf] at hq1
    cases hq1
    simp at hl

/-! ## The status assertion -/

/-- C5: on a builder that holds a response with status `s`, the `ExpectCode(c)`
handler leaves the world untouched when `s = c`; when `s ≠ c` it rewrites only
the sticky error of that builder, to the `Error` with `Op` "ExpectCode" and
message "expect code <c>, got <s>", in which both decimal renderings occur. -/
theorem expectCode_handler_spec (env : Env) (w : World) (r : Ptr) (q : Request)
    (resp : Response) (c : Int)
    (hq : w.reqs[r]? = some q) (hr : q.response = some resp) :
    (resp.StatusCode = c → (handler.expectCodeHandler c).run env r w = some w) ∧
    (resp.StatusCode ≠ c →
      (handler.expectCodeHandler c).run env r w
        = some (setReq w r { q with err := some (.requester
            { Op := "ExpectCode",
              Err := "expect code " ++ fmtD c ++ ", got " ++ fmtD resp.StatusCode }) }) ∧
      occursIn (fmtD c) ("expect code " ++ fmtD c ++ ", got " ++ fmtD resp.StatusCode) ∧
      occursIn (fmtD resp.StatusCode)
        ("expect code " ++ fmtD c ++ ", got " ++ fmtD resp.StatusCode)) := by
  constructor
  · intro h
    simp [handler.run, hq, hr, h]
  · intro h
    refine ⟨by simp [handler.run, hq, hr, h, setErr], ?_, ?_⟩
    · exact ⟨"expect code ".data, (", got " ++ fmtD resp.StatusCode).data, by
        simp [String.data_append]⟩
    · exact ⟨("expect code " ++ fmtD c ++ ", got ").data, [], by
        simp [String.data_append]⟩

/-- C5 at a 404 response: `ExpectCode(404)` changes nothing, `ExpectCode(200)`
records "expect code 200, got 404". -/
theorem expectCode_handler_spec_witness :
    (handler.expectCodeHandler 404).run env404 0 answeredWorld = some answeredWorld ∧
    ((handler.expectCodeHandler 200).run env404 0 answeredWorld).map (fun w1 => errOf w1 0)
      = some (some (.requester { Op := "ExpectCode", Err := "expect code 200, got 404" })) ∧
    occursIn "200" "expect code 200, got 404" ∧ occursIn "404" "expect code 200, got 404" :=
  ⟨(expectCode_handler_spec env404 answeredWorld 0 _ _ 404 rfl rfl).1 rfl,
   by rw [((expectCode_handler_spec env404 answeredWorld 0 _ _ 200 rfl rfl).2 (by decide)).1]
      decide,
   ((expectCode_handler_spec env404 answeredWorld 0 _ _ 200 rfl rfl).2 (by decide)).2.1,
   ((expectCode_handler_spec env404 answeredWorld 0 _ _ 200 rfl rfl).2 (by decide)).2.2⟩

/-! ## Execution: transport failures -/

/-- C7: on a builder without sticky error, when request construction fails with
`t`, `Do` returns `t` as it is and leaves the world unchanged; when the transport
returns the error `t`, `Do` returns `t` as it is and the world differs only by
the logged call and the stored response: no handler has run, every destination
variable, the handler list and the (unset) sticky error are as before. -/
theorem Do_transport_error (env : Env) (w : World) (r : Ptr) (q : Request)
    (hq : w.reqs[r]? = some q) (he : q.err = none) :
    (∀ t, env.NewRequestWithContext (some .background) q.method q.url q.body = .error t →
      Do env r w = some (w, some t)) ∧
    (∀ req cp c resp t,
      env.NewRequestWithContext (some .background) q.method q.url q.body = .ok req →
      q.httpClient = some cp → w.clients[cp]? = some c →
      env.clientDo c { req with Header := q.header } (q.header.bind fun hp => w.headers[hp]?)
        = (resp, some t) →
      Do env r w = some (afterSend w r q c req resp, some t) ∧
      (afterSend w r q c req resp).vars = w.vars ∧
      errOf (afterSend w r q c req resp) r = none ∧
      ((afterSend w r q c req resp).reqs[r]?).map (fun q1 => q1.handlers) = some q.handlers) := by
  have hlt : r < w.reqs.length := by
    rcases List.getElem?_eq_some.1 hq with ⟨h, -⟩
    exact h
  constructor
  · intro t ht
    simp [Do, hq, he, newRequest, ht]
  · intro req cp c resp t hn hc hcl hs
    refine ⟨?_, rfl, ?_, ?_⟩
    · simp [Do, hq, he, newRequest, hn, do_, hc, hcl, hs, setResponse, setReq, afterSend]
    · simp [errOf, afterSend, hlt, he]
    · simp [afterSend, hlt]

/-- C7 on `GET(..).ExpectCode(200).Decode(&v)` against a transport that cannot
connect, and on `New("GET", "")` against a constructor that rejects the url. -/
theorem Do_transport_error_witness :
    Do envDown 0 registeredWorld
      = some ({ registeredWorld with
        wire := [{ client := { Transport := none, Timeout := 1 * minute },
                   req := { ctx := .background, Method := "GET", URL := "http://example/ok",
                            Body := none, Header := some 0 },
                   header := some [] }] },
        some (.foreign "dial tcp: connection refused")) ∧
    Do envDown 0 (New "GET" "" emptyWorld).1
      = some ((New "GET" "" emptyWorld).1, some (.foreign "parse: empty url")) :=
  ⟨((Do_transport_error envDown registeredWorld 0
        { url := "http://example/ok", method := "GET", err := none, body := none,
          header := some 0, httpClient := some 0, response := none,
          handlers := [some (.expectCodeHandler 200), some (.decodeToAnyHandler (some 0))] }
        rfl rfl).2
      { ctx := .background, Method := "GET", URL := "http://example/ok", Body := none,
        Header := none }
      0 { Transport := none, Timeout := 1 * minute } none
      (.foreign "dial tcp: connection refused") rfl rfl rfl rfl).1,
   (Do_transport_error envDown (New "GET" "" emptyWorld).1 0
        { url := "", method := "GET", err := none, body := none,
          header := some 0, httpClient := some 0, response := none, handlers := [] }
        rfl rfl).1 (.foreign "parse: empty url") rfl⟩

/-! ## Execution: `DoWithContext` against `Do` -/

/-- C8: `DoWithContext` never looks at the sticky error. Whatever the sticky
error of the builder is, once request construction and the send succeed the
call has reached the transport, the handler chain runs on the stored response,
and the value returned is nil for every world the chain leaves behind. `Do` on
the same builder returns the sticky error instead: the one already set, without
sending, or else the one the chain left. -/
theorem DoWithContext_ignores_sticky_error (env : Env) (w : World) (r : Ptr) (q : Request)
    (ctx : Option Context) (req : HTTPRequest) (cp : Ptr) (c : Client) (resp : Option Response)
    (hq : w.reqs[r]? = some q)
    (hn : env.NewRequestWithContext ctx q.method q.url q.body = .ok req)
    (hc : q.httpClient = some cp) (hcl : w.clients[cp]? = some c)
    (hs : env.clientDo c { req with Header := q.header } (q.header.bind fun hp => w.headers[hp]?)
            = (resp, none)) :
    DoWithContext env r ctx w
      = (chainHandlers env r (afterSend w r q c req resp)).map (fun w2 => (w2, none)) ∧
    (∀ w2, chainHandlers env r (afterSend w r q c req resp) = some w2 →
      DoWithContext env r ctx w = some (w2, none)) ∧
    (ctx = some .background → q.err = none →
      ∀ w2, chainHandlers env r (afterSend w r q c req resp) = some w2 →
        Do env r w = some (w2, errOf w2 r)) ∧
    (∀ e, q.err = some e → Do env r w = some (w, some e)) := by
  have h1 : DoWithContext env r ctx w
      = (chainHandlers env r (afterSend w r q c req resp)).map (fun w2 => (w2, none)) := by
    simp [DoWithContext, newRequestWithContext, hq, hn, do_, hc, hcl, hs, setResponse, setReq,
      afterSend]
  refine ⟨h1, ?_, ?_, ?_⟩
  · intro w2 h2
    rw [h1, h2]
    rfl
  · intro hctx he w2 h2
    subst hctx
    have h3 : Do env r w
        = (chainHandlers env r (afterSend w r q c req resp)).bind fun w2 =>
            (w2.reqs[r]?).map fun q2 => (w2, q2.err) := by
      simp [Do, newRequest, hq, he, hn, do_, hc, hcl, hs, setResponse, setReq, afterSend]
    rw [h3, h2]
    have hlen : r < w2.reqs.length := by
      rw [chainHandlers_reqs_length h2]
      rcases List.getElem?_eq_some.1 hq with ⟨h, -⟩
      simpa [afterSend] using h
    simp [errOf, List.getElem?_eq_getElem hlen]
  · intro e he
    simp [Do, hq, he]

/-- C8 on `GET(..).ExpectCode(200).Decode(&v)` against a 404 answer:
`DoWithContext` returns nil although the chain left the `ExpectCode` error,
`Do` returns that error; and on a builder whose sticky error is already set
`DoWithContext` still sends. -/
theorem DoWithContext_ignores_sticky_error_witness :
    DoWithContext env404 0 (some (.custom 1)) registeredWorld = some (doneWorld (.custom 1), none) ∧
    errOf (doneWorld (.custom 1)) 0
      = some (.requester { Op := "ExpectCode", Err := "expect code 200, got 404" }) ∧
    Do env404 0 registeredWorld
      = some (doneWorld .background,
              some (.requester { Op := "ExpectCode", Err := "expect code 200, got 404" })) ∧
    (DoWithContext env404 0 (some .background) failedWorld).map
        (fun out => (out.1.wire.length, (errOf out.1 0).isSome, out.2))
      = some (failedWorld.wire.length + 1, true, none) :=
  ⟨(DoWithContext_ignores_sticky_error env404 registeredWorld 0 _ (some (.custom 1))
      { ctx := .custom 1, Method := "GET", URL := "http://example/ok", Body := none,
        Header := none }
      0 _ _ rfl rfl rfl rfl rfl).2.1 (doneWorld (.custom 1)) (by decide),
   by decide,
   (DoWithContext_ignores_sticky_error env404 registeredWorld 0 _ (some .background)
      { ctx := .background, Method := "GET", URL := "http://example/ok", Body := none,
        Header := none }
      0 _ _ rfl rfl rfl rfl rfl).2.2.1 rfl rfl (doneWorld .background) (by decide),
   by rw [(DoWithContext_ignores_sticky_error env404 failedWorld 0 _ (some .background)
        { ctx := .background, Method := "GET", URL := "http://example/ok",
          Body := some (.bytesBuffer []), Header := none }
        0 _ _ rfl rfl rfl rfl rfl).1]
      simp [chainHandlers, afterSend, failedWorld, rangeHandlers, errOf]⟩

/-! ## The handler chain -/

theorem rangeHandlers_eq_foldlM (env : Env) (r : Ptr) (hs : List (Option handler)) :
    ∀ w : World, rangeHandlers env r hs w
      = (hs.filterMap id).foldlM (fun acc h => h.run env r acc) w := by
  induction hs with
  | nil =>
    intro w
    rfl
  | cons a t ih =>
    intro w
    cases a with
    | none => simpa [rangeHandlers] using ih w
    | some hd =>
      simp only [rangeHandlers, List.filterMap_cons, id, List.foldlM_cons]
      cases hrun : hd.run env r w with
      | none => rfl
      | some w1 => simpa using ih w1

theorem last_write_wins (env : Env) (r : Ptr) (hs : List handler) :
    ∀ w w1 : World, hs.foldlM (fun acc h => h.run env r acc) w = some w1 →
      (errUntouched env r hs w ∧ errOf w1 r = errOf w r) ∨
      ∃ pre h post wa wb, hs = pre ++ h :: post ∧
        pre.foldlM (fun acc h => h.run env r acc) w = some wa ∧
        h.run env r wa = some wb ∧ errOf wb r ≠ errOf wa r ∧
        errUntouched env r post wb ∧
        post.foldlM (fun acc h => h.run env r acc) wb = some w1 ∧
        errOf w1 r = errOf wb r := by
  induction hs with
  | nil =>
    intro w w1 h
    left
    simp at h
    subst h
    exact ⟨trivial, rfl⟩
  | cons hd t ih =>
    intro w w1 h
    simp only [List.foldlM_cons, Option.bind_eq_bind, Option.bind_eq_some] at h
    obtain ⟨w2, h2, h3⟩ := h
    rcases ih w2 w1 h3 with ⟨hu, he⟩ | ⟨pre, h0, post, wa, wb, hsplit, hpre, hrun, hne, hu, hpost, he⟩
    · by_cases hc : errOf w2 r = errOf w r
      · left
        refine ⟨?_, by rw [he, hc]⟩
        intro w3 h4
        rw [h2] at h4
        cases h4
        exact ⟨hc, hu⟩
      · right
        exact ⟨[], hd, t, w, w2, rfl, rfl, h2, hc, hu, h3, he⟩
    · right
      refine ⟨hd :: pre, h0, post, wa, wb, by rw [hsplit]; rfl, ?_, hrun, hne, hu, hpost, he⟩
      simp only [List.foldlM_cons, Option.bind_eq_bind, Option.bind_eq_some]
      exact ⟨w2, h2, hpre⟩

/-- C4: the chain is a left fold of the non-nil handlers in registration order,
each run once on the world its predecessor left, with no test of the sticky
error in between; the sticky error it leaves is the prior one when no handler
changed it, and otherwise the one left by the last handler that changed it.
On a builder holding a response with a body, with every handler destination an
existing variable, the chain returns.
Scenario: on a fresh builder, `ExpectCode(200).Decode(&v).Do()` against a 404
answer with body `{"a":1}` returns an error whose text contains
"expect code 200, got 404", and `v` holds the decoded record `a = 1`. -/
theorem chainHandlers_no_short_circuit (env : Env) (w : World) (r : Ptr) (q : Request)
    (hq : w.reqs[r]? = some q) :
    chainHandlers env r w
      = (q.handlers.filterMap id).foldlM (fun acc h => h.run env r acc) w ∧
    (∀ w1, chainHandlers env r w = some w1 →
      (errUntouched env r (q.handlers.filterMap id) w ∧ errOf w1 r = errOf w r) ∨
      ∃ pre h post wa wb, q.handlers.filterMap id = pre ++ h :: post ∧
        pre.foldlM (fun acc h => h.run env r acc) w = some wa ∧
        h.run env r wa = some wb ∧ errOf wb r ≠ errOf wa r ∧
        errUntouched env r post wb ∧
        post.foldlM (fun acc h => h.run env r acc) wb = some w1 ∧
        errOf w1 r = errOf wb r) ∧
    (∀ resp b, q.response = some resp → resp.Body = some b →
      (∀ h, some h ∈ q.handlers → destValid w.vars.length h) →
      ∃ w1, chainHandlers env r w = some w1) ∧
    (∀ (v : Ptr) (req : HTTPRequest) (cp : Ptr) (c : Client) (cookies : List String)
        (rest : BodyStream),
      q.err = none → q.handlers = [] → v < w.vars.length →
      env.NewRequestWithContext (some .background) q.method q.url q.body = .ok req →
      q.httpClient = some cp → w.clients[cp]? = some c →
      env.clientDo c { req with Header := q.header } (q.header.bind fun hp => w.headers[hp]?)
        = (some { StatusCode := 404, Body := some bodyA1, cookies := cookies }, none) →
      env.jsonDecode bodyA1 w.vars[v]?
        = { rest := rest, value := some (.record [("a", 1)]), err := none } →
      rest.closeErr = none →
      ∃ w1 w2 w3 e,
        ExpectCode r 200 w = some (w1, r) ∧ Decode r (some v) w1 = some (w2, r) ∧
        Do env r w2 = some (w3, some e) ∧
        occursIn "expect code 200, got 404" e.text ∧
        w3.vars[v]? = some (.record [("a", 1)])) := by
  have hlt : r < w.reqs.length := by
    rcases List.getElem?_eq_some.1 hq with ⟨h, -⟩
    exact h
  have hfold : chainHandlers env r w
      = (q.handlers.filterMap id).foldlM (fun acc h => h.run env r acc) w := by
    simp [chainHandlers, hq, rangeHandlers_eq_foldlM]
  refine ⟨hfold, ?_, ?_, ?_⟩
  · intro w1 h1
    rw [hfold] at h1
    exact last_write_wins env r _ w w1 h1
  · intro resp b hr hB hd
    obtain ⟨w1, h1⟩ := rangeHandlers_total env r q.handlers w ⟨q, resp, b, hq, hr, hB⟩ hd
    exact ⟨w1, by simp [chainHandlers, hq, h1]⟩
  · intro v req cp c cookies rest he hh hv hn hc hcl hs hd hcl2
    have h1 : ExpectCode r 200 w
        = some (setReq w r { q with handlers := [some (.expectCodeHandler 200)] }, r) := by
      simp [ExpectCode, hq, he, hh]
    have h2 : Decode r (some v) (setReq w r { q with handlers := [some (.expectCodeHandler 200)] })
        = some (setReq w r { q with handlers := [some (.expectCodeHandler 200),
                                                 some (.decodeToAnyHandler (some v))] }, r) := by
      simp [Decode, setReq, hlt, he]
    have h3 : ∃ w3, Do env r (setReq w r { q with handlers := [some (.expectCodeHandler 200),
                                                 some (.decodeToAnyHandler (some v))] })
        = some (w3, some (.requester { Op := "ExpectCode", Err := "expect code 200, got 404" })) ∧
        w3.vars[v]? = some (.record [("a", 1)]) := by
      have hd1 : env.jsonDecode bodyA1 (some w.vars[v])
          = { rest := rest, value := some (.record [("a", 1)]), err := none } := by
        rw [← hd, List.getElem?_eq_getElem hv]
      have hmsg : "expect code " ++ fmtD 200 ++ ", got " ++ fmtD 404
          = "expect code 200, got 404" := by decide
      simp [Do, setReq, hlt, he, hh, newRequest, hn, do_, hc, hcl, hs, setResponse, chainHandlers,
        rangeHandlers, handler.run, setErr, setBody, hd1, store, hv, closeBody, BodyStream.Close,
        hcl2, hmsg]
    obtain ⟨w3, h3, h4⟩ := h3
    exact ⟨_, _, w3, _, h1, h2, h3, by decide, h4⟩

/-- C4 on `GET("http://example/ok")` with one caller variable `v`, against the
404 answer of `env404`. -/
theorem chainHandlers_no_short_circuit_witness :
    ∃ w1 w2 w3 e,
      ExpectCode 0 200 freshWorld = some (w1, 0) ∧ Decode 0 (some 0) w1 = some (w2, 0) ∧
      Do env404 0 w2 = some (w3, some e) ∧
      occursIn "expect code 200, got 404" e.text ∧
      w3.vars[0]? = some (.record [("a", 1)]) :=
  (chainHandlers_no_short_circuit env404 freshWorld 0
      { url := "http://example/ok", method := "GET", err := none, body := none,
        header := some 0, httpClient := some 0, response := none, handlers := [] } rfl).2.2.2
    0 { ctx := .background, Method := "GET", URL := "http://example/ok", Body := none,
        Header := none }
    0 { Transport := none, Timeout := 1 * minute } []
    { unread := [], readErr := none, closeErr := none }
    rfl rfl (by decide) rfl rfl rfl rfl rfl rfl

/-! ## Where the code departs from its description -/

/-- C1 at `New("GET", "http://example/ok")`: `Body("hello")` and
`BodyBytes(b)` return address 1, not the receiver at address 0, and the builder
there has an empty url and method, a nil header map, a nil client and no
handlers; the receiver still has no body. -/
theorem Body_returns_fresh_builder :
    (New "GET" "http://example/ok" emptyWorld).2 = 0 ∧
    (Body 0 "hello" (New "GET" "http://example/ok" emptyWorld).1).map
        (fun out => (out.2, out.1.reqs[out.2]?, (out.1.reqs[0]?).map (fun q => q.body)))
      = some (1,
              some { url := "", method := "", err := none,
                     body := some (.stringsReader "hello"), header := none,
                     httpClient := none, response := none, handlers := [] },
              some none) ∧
    (BodyBytes 0 [104, 105] (New "GET" "http://example/ok" emptyWorld).1).map
        (fun out => (out.2, out.1.reqs[out.2]?, (out.1.reqs[0]?).map (fun q => q.body)))
      = some (1,
              some { url := "", method := "", err := none,
                     body := some (.bytesBuffer [104, 105]), header := none,
                     httpClient := none, response := none, handlers := [] },
              some none) ∧
    (New "GET" "http://example/ok" emptyWorld).1.reqs[0]?
      = some { url := "http://example/ok", method := "GET", err := none, body := none,
               header := some 0, httpClient := some 0, response := none, handlers := [] } := by
  decide

/-- C10 at a body whose read fails: the `ToString` handler records the
operation "ToJSON" (rendered "ToJSON: unexpected EOF"), while the `ToBytes`
handler on the same response records "ToBytes". -/
theorem ToString_read_failure_records_ToJSON :
    ((handler.decodeToStringHandler (some 0)).run env404 0 brokenBodyWorld).map
        (fun w1 => (errOf w1 0, (errOf w1 0).map GoError.text))
      = some (some (.requester { Op := "ToJSON", Err := "unexpected EOF" }),
              some "ToJSON: unexpected EOF") ∧
    ((handler.decodeToBytesHandler (some 0)).run env404 0 brokenBodyWorld).map
        (fun w1 => errOf w1 0)
      = some (some (.requester { Op := "ToBytes", Err := "unexpected EOF" })) := by
  decide

end Requester
